import Mathlib

/-!
Shallow embedding of `src/ts/Grid/Core/Querying/SortingController.ts`
(Highcharts Grid sorting controller).

The controller keeps three pieces of state (`currentSorting`,
`initialSorting`, `modifier`) plus the owning querying controller's dirty
flag `shouldBeUpdated`, and reads the grid's `columnOptionsMap`.  All of
that is gathered in one record, `GridState`, and each method becomes a
state-passing function.  JavaScript values that may be a string, `null`
or `undefined` are modelled by `JStr`; the distinction between `null`
and `undefined` matters because the source compares with `!==`, and the
source tests strings for truthiness (`if (order)`, `if (foundColumnId)`),
so the empty string behaves like an absent value there.

`console.warn` calls are modelled by returning a count of emitted
warnings alongside the resulting state.  The comparator function
`compare` is modelled by an abstract handle (`Nat`): the controller only
copies it around, never calls it.
-/

/-- JavaScript value that is a string, `null`, or `undefined`. -/
inductive JStr where
  | undef
  | nullv
  | str (s : String)
deriving DecidableEq, Repr

/-- JavaScript truthiness of a `string | null | undefined` value:
only a non-empty string is truthy. -/
def JStr.truthy : JStr → Bool
  | .str s => s != ""
  | _ => false

/-- Extracts the string of a `JStr`; meaningful only when the value is
known to be a string (as after a truthiness test in the source). -/
def JStr.asString : JStr → String
  | .str s => s
  | _ => ""

/-- Per-column `sorting` options: `{ order?, compare? }`.  The optional
`order` field is a `JStr` (it may be `undefined`); `compare` is an
abstract comparator handle. -/
structure ColumnSortingOptions where
  order : JStr
  compare : Option Nat
deriving DecidableEq, Repr

/-- Per-column options object, of which only `sorting` is relevant here. -/
structure ColumnOptions where
  sorting : Option ColumnSortingOptions
deriving DecidableEq, Repr

/-- Entry of the grid's `columnOptionsMap`: an object with an `options`
field that the source guards with `?.` and `|| \x7b\x7d`. -/
structure ColumnEntry where
  options : Option ColumnOptions
deriving DecidableEq, Repr

/-- The grid's `columnOptionsMap`: an object keyed by column id, with
insertion (declaration) order significant; entries may be `undefined`.
Modelled as an association list in declaration order. -/
abbrev ColumnOptionsMap := List (String × Option ColumnEntry)

/-- Reads `entry?.options || \x7b\x7d` and then `.sorting` of it. -/
def entrySorting : Option ColumnEntry → Option ColumnSortingOptions
  | none => none
  | some e =>
    match e.options with
    | none => none
    | some o => o.sorting

/-- Reads `columnOptionsMap[columnId]?.options || \x7b\x7d` followed by
`.sorting?.order`, as in the scan of `getSortingOptions`. -/
def declaredOrder (e : Option ColumnEntry) : JStr :=
  match entrySorting e with
  | none => .undef
  | some s => s.order

/-- Reads `.sorting?.compare` of an entry. -/
def declaredCompare (e : Option ColumnEntry) : Option Nat :=
  match entrySorting e with
  | none => none
  | some s => s.compare

/-- Reads `columnOptionsMap?.[columnId]?.options?.sorting?.compare`,
as in `createModifier`. -/
def lookupCompare (m : Option ColumnOptionsMap) (columnId : String) : Option Nat :=
  match m with
  | none => none
  | some map =>
    match map.lookup columnId with
    | none => none
    | some e => declaredCompare e

/-- The `SortingController.SortingState` interface:
`\x7b columnId?: string; order: ColumnSortingOrder \x7d`.  Both fields are
`JStr` since either can hold `undefined` (and `order` can hold `null`). -/
structure SortingState where
  columnId : JStr
  order : JStr
deriving DecidableEq, Repr

/-- Options of the `SortModifier` built by `createModifier`:
`\x7b orderByColumn, direction, compare \x7d`. -/
structure SortModifierOptions where
  orderByColumn : String
  direction : JStr
  compare : Option Nat
deriving DecidableEq, Repr

/-- Combined state of the sorting controller, its querying controller's
dirty flag, and the grid's column options map it reads. -/
structure GridState where
  columnOptionsMap : Option ColumnOptionsMap
  shouldBeUpdated : Bool
  currentSorting : Option SortingState
  initialSorting : Option SortingState
  modifier : Option SortModifierOptions
deriving DecidableEq, Repr

/-- Optional chaining `state?.columnId`: `undefined` when the state
object is `undefined`. -/
def optionalColumnId : Option SortingState → JStr
  | none => .undef
  | some s => s.columnId

/-- Optional chaining `state?.order`: `undefined` when the state object
is `undefined`. -/
def optionalOrder : Option SortingState → JStr
  | none => .undef
  | some s => s.order

/-- The method `createModifier`: returns `undefined` unless
`currentSorting` is set with a truthy `order` and a truthy `columnId`;
otherwise builds the `SortModifier` options with the comparator looked
up in the column options map. -/
def createModifier (m : Option ColumnOptionsMap) :
    Option SortingState → Option SortModifierOptions
  | none => none
  | some cs =>
    if cs.order.truthy && cs.columnId.truthy then
      some { orderByColumn := cs.columnId.asString
             direction := cs.order
             compare := lookupCompare m cs.columnId.asString }
    else none

/-- The method `setSorting(order, columnId)`: marks dirty and replaces
`currentSorting` when the `(columnId, order)` pair differs (by `!==`,
through optional chaining) from the stored one, then unconditionally
rebuilds the modifier. -/
def setSorting (g : GridState) (order : JStr) (columnId : JStr) : GridState :=
  let g1 :=
    if optionalColumnId g.currentSorting ≠ columnId ∨
        optionalOrder g.currentSorting ≠ order then
      { g with shouldBeUpdated := true
               currentSorting := some { columnId := columnId, order := order } }
    else g
  { g1 with modifier := createModifier g1.columnOptionsMap g1.currentSorting }

/-- Result of the reverse scan loop in `getSortingOptions`: the local
variables `foundOrder` and `foundColumnId`, plus the number of
`console.warn` calls emitted. -/
structure ScanResult where
  foundOrder : JStr
  foundColumnId : Option String
  warnings : Nat
deriving DecidableEq, Repr

/-- JavaScript truthiness of the `foundColumnId` local
(`string | undefined`). -/
def foundIdTruthy : Option String → Bool
  | none => false
  | some s => s != ""

/-- The loop of `getSortingOptions`, running over the column ids in
reverse declaration order: a column with a truthy declared order either
triggers the conflict warning and a `break` (when `foundColumnId` is
truthy) or becomes the new found column. -/
def scanColumns : List (String × Option ColumnEntry) → JStr → Option String →
    Nat → ScanResult
  | [], foundOrder, foundColumnId, warns =>
    { foundOrder := foundOrder, foundColumnId := foundColumnId, warnings := warns }
  | (columnId, entry) :: rest, foundOrder, foundColumnId, warns =>
    let order := declaredOrder entry
    if order.truthy then
      if foundIdTruthy foundColumnId then
        { foundOrder := foundOrder, foundColumnId := foundColumnId,
          warnings := warns + 1 }
      else
        scanColumns rest order (some columnId) warns
    else
      scanColumns rest foundOrder foundColumnId warns

/-- Converts the `foundColumnId` local (`string | undefined`) to the
`columnId` field of the returned state. -/
def jstrOfOption : Option String → JStr
  | none => .undef
  | some s => .str s

/-- The method `getSortingOptions`: `\x7b order: null \x7d` when the map is
absent, else the result of the reverse scan, paired with the number of
warnings emitted. -/
def getSortingOptions : Option ColumnOptionsMap → SortingState × Nat
  | none => ({ columnId := .undef, order := .nullv }, 0)
  | some map =>
    let r := scanColumns map.reverse .nullv none 0
    ({ columnId := jstrOfOption r.foundColumnId, order := r.foundOrder },
      r.warnings)

/-- The method `loadOptions`: derives the state from the options and,
only when it differs (by `!==` field comparison) from `initialSorting`,
stores it as the new initial state and calls `setSorting` with it. -/
def loadOptions (g : GridState) : GridState × Nat :=
  let so := getSortingOptions g.columnOptionsMap
  if so.1.columnId ≠ optionalColumnId g.initialSorting ∨
      so.1.order ≠ optionalOrder g.initialSorting then
    (setSorting { g with initialSorting := some so.1 } so.1.order so.1.columnId,
      so.2)
  else
    (g, so.2)

/-- One external call into the controller: either `setSorting` or
`loadOptions`. -/
inductive Op where
  | set (order : JStr) (columnId : JStr)
  | load
deriving DecidableEq, Repr

/-- Applies one call, returning the new state and the warnings emitted. -/
def applyOp (g : GridState) : Op → GridState × Nat
  | .set o c => (setSorting g o c, 0)
  | .load => loadOptions g

/-- Applies a sequence of calls, accumulating emitted warnings. -/
def applyOps (g : GridState) : List Op → GridState × Nat
  | [] => (g, 0)
  | op :: rest =>
    let r1 := applyOp g op
    let r2 := applyOps r1.1 rest
    (r2.1, r1.2 + r2.2)

/-- Applies a sequence of direct `setSorting` calls. -/
def applySets (g : GridState) : List (JStr × JStr) → GridState
  | [] => g
  | (o, c) :: rest => applySets (setSorting g o c) rest

/-- Modelled from the spec: the enumerated set of valid `order` values,
`\x7bascending, descending, none/null\x7d` (the source's
`ColumnSortingOrder` type is not under `src/`; its runtime literals are
the strings "asc" and "desc" and the value `null`). -/
def specValidOrder : JStr → Bool
  | .str s => s == "asc" || s == "desc"
  | .nullv => true
  | .undef => false

/-!
Helper lemmas, shared by the claim theorems below.
-/

/-- Characterization of `setSorting` when the pair differs: dirty flag
set, state replaced, modifier rebuilt from the new state. -/
theorem setSorting_change {g : GridState} {o c : JStr}
    (h : optionalColumnId g.currentSorting ≠ c ∨
      optionalOrder g.currentSorting ≠ o) :
    setSorting g o c =
      { g with shouldBeUpdated := true
               currentSorting := some { columnId := c, order := o }
               modifier := createModifier g.columnOptionsMap
                 (some { columnId := c, order := o }) } := by
  simp only [setSorting]
  rw [if_pos h]

/-- Characterization of `setSorting` when the pair is unchanged: only
the modifier is rebuilt, from the unchanged current state. -/
theorem setSorting_same {g : GridState} {o c : JStr}
    (h1 : optionalColumnId g.currentSorting = c)
    (h2 : optionalOrder g.currentSorting = o) :
    setSorting g o c =
      { g with modifier := createModifier g.columnOptionsMap g.currentSorting } := by
  simp only [setSorting]
  rw [if_neg]
  intro hor
  rcases hor with h | h
  · exact h h1
  · exact h h2

/-- A `setSorting` call never touches the column options map nor the
initial sorting state. -/
theorem setSorting_frame (g : GridState) (o c : JStr) :
    (setSorting g o c).columnOptionsMap = g.columnOptionsMap ∧
    (setSorting g o c).initialSorting = g.initialSorting := by
  by_cases h : optionalColumnId g.currentSorting ≠ c ∨
      optionalOrder g.currentSorting ≠ o
  · rw [setSorting_change h]
    exact ⟨rfl, rfl⟩
  · rw [not_or, not_not, not_not] at h
    rw [setSorting_same h.1 h.2]
    exact ⟨rfl, rfl⟩

/-- After `setSorting(order, columnId)`, the current state reads back
(through optional chaining) exactly the given pair. -/
theorem setSorting_fields (g : GridState) (o c : JStr) :
    optionalColumnId (setSorting g o c).currentSorting = c ∧
    optionalOrder (setSorting g o c).currentSorting = o := by
  by_cases h : optionalColumnId g.currentSorting ≠ c ∨
      optionalOrder g.currentSorting ≠ o
  · rw [setSorting_change h]
    exact ⟨rfl, rfl⟩
  · rw [not_or, not_not, not_not] at h
    rw [setSorting_same h.1 h.2]
    exact h

/-- When the given `columnId` is not `undefined`, `setSorting` leaves
the current state equal to the given pair as an object. -/
theorem setSorting_currentSorting {g : GridState} {o c : JStr}
    (hc : c ≠ .undef) :
    (setSorting g o c).currentSorting = some { columnId := c, order := o } := by
  by_cases h : optionalColumnId g.currentSorting ≠ c ∨
      optionalOrder g.currentSorting ≠ o
  · rw [setSorting_change h]
  · rw [not_or, not_not, not_not] at h
    rw [setSorting_same h.1 h.2]
    obtain ⟨h1, h2⟩ := h
    match hcs : g.currentSorting with
    | none =>
      rw [hcs] at h1
      exact absurd h1.symm hc
    | some st =>
      rw [hcs] at h1 h2
      simp only [optionalColumnId, optionalOrder] at h1 h2
      rw [← h1, ← h2]

/-- The modifier stored by `setSorting` is exactly the one rebuilt from
the resulting current state and the (unchanged) column options map. -/
theorem setSorting_modifier (g : GridState) (o c : JStr) :
    (setSorting g o c).modifier =
      createModifier g.columnOptionsMap (setSorting g o c).currentSorting := by
  by_cases h : optionalColumnId g.currentSorting ≠ c ∨
      optionalOrder g.currentSorting ≠ o
  · rw [setSorting_change h]
  · rw [not_or, not_not, not_not] at h
    rw [setSorting_same h.1 h.2]

/-- The dirty flag is never reset by `setSorting`. -/
theorem setSorting_flag_mono {g : GridState} (o c : JStr)
    (h : g.shouldBeUpdated = true) :
    (setSorting g o c).shouldBeUpdated = true := by
  by_cases hch : optionalColumnId g.currentSorting ≠ c ∨
      optionalOrder g.currentSorting ≠ o
  · rw [setSorting_change hch]
  · rw [not_or, not_not, not_not] at hch
    rw [setSorting_same hch.1 hch.2]
    exact h

/-- The dirty flag is never reset by `loadOptions`. -/
theorem loadOptions_flag_mono {g : GridState}
    (h : g.shouldBeUpdated = true) :
    (loadOptions g).1.shouldBeUpdated = true := by
  simp only [loadOptions]
  split
  · exact setSorting_flag_mono _ _ h
  · exact h

/-- The dirty flag is never reset by any sequence of `setSorting` and
`loadOptions` calls. -/
theorem applyOps_flag_mono {g : GridState} (ops : List Op)
    (h : g.shouldBeUpdated = true) :
    (applyOps g ops).1.shouldBeUpdated = true := by
  induction ops generalizing g with
  | nil => exact h
  | cons op rest ih =>
    simp only [applyOps]
    match op with
    | .set o c => exact ih (setSorting_flag_mono o c h)
    | .load => exact ih (loadOptions_flag_mono h)

/-- The warnings emitted by `loadOptions` are exactly the warnings of
the configuration scan, whether or not the derived state is installed. -/
theorem loadOptions_warnings (g : GridState) :
    (loadOptions g).2 = (getSortingOptions g.columnOptionsMap).2 := by
  simp only [loadOptions]
  split <;> rfl

/-- A `loadOptions` call never changes the column options map. -/
theorem loadOptions_map (g : GridState) :
    (loadOptions g).1.columnOptionsMap = g.columnOptionsMap := by
  simp only [loadOptions]
  split
  · exact (setSorting_frame _ _ _).1
  · rfl

/-- The initial state recorded by the controller agrees (through
optional chaining, field by field) with the state derived from the
column options map. -/
def initialMatches (g : GridState) : Prop :=
  (getSortingOptions g.columnOptionsMap).1.columnId =
    optionalColumnId g.initialSorting ∧
  (getSortingOptions g.columnOptionsMap).1.order =
    optionalOrder g.initialSorting

/-- When the recorded initial state matches the derived one,
`loadOptions` is a pure no-op on the state (only warnings are emitted). -/
theorem loadOptions_noop {g : GridState} (h : initialMatches g) :
    (loadOptions g).1 = g := by
  simp only [loadOptions]
  rw [if_neg]
  intro hor
  rcases hor with hne | hne
  · exact hne h.1
  · exact hne h.2

/-- After any `loadOptions` call, the recorded initial state matches the
derived one. -/
theorem loadOptions_establishes (g : GridState) :
    initialMatches (loadOptions g).1 := by
  by_cases h : (getSortingOptions g.columnOptionsMap).1.columnId ≠
      optionalColumnId g.initialSorting ∨
      (getSortingOptions g.columnOptionsMap).1.order ≠
      optionalOrder g.initialSorting
  · have hres : (loadOptions g).1 =
        setSorting { g with initialSorting := some (getSortingOptions g.columnOptionsMap).1 }
          (getSortingOptions g.columnOptionsMap).1.order
          (getSortingOptions g.columnOptionsMap).1.columnId := by
      simp only [loadOptions]
      rw [if_pos h]
    constructor <;>
      rw [hres, (setSorting_frame _ _ _).1, (setSorting_frame _ _ _).2] <;>
      rfl
  · rw [not_or, not_not, not_not] at h
    have hres : (loadOptions g).1 = g := by
      simp only [loadOptions]
      rw [if_neg]
      intro hor
      rcases hor with hne | hne
      · exact hne h.1
      · exact hne h.2
    rw [hres]
    exact h

/-- A `setSorting` call preserves the match between the recorded initial
state and the derived one (it touches neither). -/
theorem setSorting_preserves_matches {g : GridState} (o c : JStr)
    (h : initialMatches g) :
    initialMatches (setSorting g o c) := by
  unfold initialMatches at h ⊢
  rw [(setSorting_frame g o c).1, (setSorting_frame g o c).2]
  exact h

/-- Any sequence of direct `setSorting` calls preserves the match
between the recorded initial state and the derived one. -/
theorem applySets_preserves_matches {g : GridState}
    (sets : List (JStr × JStr)) (h : initialMatches g) :
    initialMatches (applySets g sets) := by
  induction sets generalizing g with
  | nil => exact h
  | cons p rest ih =>
    obtain ⟨o, c⟩ := p
    exact ih (setSorting_preserves_matches o c h)

/-- Columns without a truthy declared order are skipped by the scan. -/
theorem scanColumns_skip {l : List (String × Option ColumnEntry)}
    (fo : JStr) (fc : Option String) (w : Nat)
    (h : ∀ p ∈ l, (declaredOrder p.2).truthy = false) :
    scanColumns l fo fc w =
      { foundOrder := fo, foundColumnId := fc, warnings := w } := by
  induction l with
  | nil => rfl
  | cons p rest ih =>
    obtain ⟨cid, e⟩ := p
    have h0 : (declaredOrder e).truthy = false := h (cid, e) (List.mem_cons_self _ _)
    simp only [scanColumns, h0, Bool.false_eq_true, if_false]
    exact ih fun q hq => h q (List.mem_cons_of_mem _ hq)

/-- A skipped prefix can be dropped from the scanned list. -/
theorem scanColumns_append_skip {l1 : List (String × Option ColumnEntry)}
    (rest : List (String × Option ColumnEntry))
    (fo : JStr) (fc : Option String) (w : Nat)
    (h : ∀ p ∈ l1, (declaredOrder p.2).truthy = false) :
    scanColumns (l1 ++ rest) fo fc w = scanColumns rest fo fc w := by
  induction l1 with
  | nil => rfl
  | cons p tail ih =>
    obtain ⟨cid, e⟩ := p
    have h0 : (declaredOrder e).truthy = false := h (cid, e) (List.mem_cons_self _ _)
    simp only [List.cons_append, scanColumns, h0, Bool.false_eq_true, if_false]
    exact ih fun q hq => h q (List.mem_cons_of_mem _ hq)

/-- Once a truthy column id has been recorded, the scan warns exactly
once and breaks at the next column with a truthy declared order. -/
theorem scanColumns_break {l : List (String × Option ColumnEntry)}
    (fo : JStr) (s : String) (w : Nat)
    (hs : s ≠ "")
    (h : l.any (fun p => (declaredOrder p.2).truthy) = true) :
    scanColumns l fo (some s) w =
      { foundOrder := fo, foundColumnId := some s, warnings := w + 1 } := by
  induction l with
  | nil => simp at h
  | cons p rest ih =>
    obtain ⟨cid, e⟩ := p
    have hfc : foundIdTruthy (some s) = true := by
      simp only [foundIdTruthy, bne_iff_ne, ne_eq]
      exact hs
    by_cases h0 : (declaredOrder e).truthy = true
    · simp only [scanColumns, h0, if_true, hfc]
    · have hrest : rest.any (fun p => (declaredOrder p.2).truthy) = true := by
        simp only [List.any_cons, Bool.or_eq_true] at h
        rcases h with h | h
        · exact absurd h h0
        · exact h
      simp only [scanColumns, h0, if_false]
      exact ih hrest

/-- The `foundOrder` local never holds `undefined`: it starts as `null`
and is only ever replaced by a truthy (hence string) declared order. -/
theorem scanColumns_order_ne_undef {l : List (String × Option ColumnEntry)}
    (fo : JStr) (fc : Option String) (w : Nat)
    (h : fo ≠ .undef) :
    (scanColumns l fo fc w).foundOrder ≠ .undef := by
  induction l generalizing fo fc w with
  | nil => exact h
  | cons p rest ih =>
    obtain ⟨cid, e⟩ := p
    by_cases h0 : (declaredOrder e).truthy = true
    · simp only [scanColumns, h0, if_true]
      by_cases hfc : foundIdTruthy fc = true
      · simp only [hfc, if_true]
        exact h
      · simp only [hfc, if_false]
        apply ih
        intro habs
        rw [habs] at h0
        simp [JStr.truthy] at h0
    · simp only [scanColumns, h0, if_false]
      exact ih fo fc w h

/-- Setting an order that differs from the stored one always marks the
querying controller dirty. -/
theorem setSorting_flag_of_order_ne {g : GridState} {o c : JStr}
    (h : optionalOrder g.currentSorting ≠ o) :
    (setSorting g o c).shouldBeUpdated = true := by
  rw [setSorting_change (Or.inr h)]

/-- The derived state's order is never `undefined`: it is `null` or a
truthy declared order. -/
theorem getSortingOptions_order_ne_undef (m : Option ColumnOptionsMap) :
    (getSortingOptions m).1.order ≠ .undef := by
  match m with
  | none =>
    intro h
    exact JStr.noConfusion h
  | some map =>
    simp only [getSortingOptions]
    exact scanColumns_order_ne_undef .nullv none 0 (fun h => JStr.noConfusion h)

/-- Sample column entry declaring ascending order, no comparator. -/
def sampleAsc : Option ColumnEntry :=
  some { options := some { sorting := some { order := .str "asc", compare := none } } }

/-- Sample column entry declaring descending order with a comparator. -/
def sampleDesc : Option ColumnEntry :=
  some { options := some { sorting := some { order := .str "desc", compare := some 7 } } }

/-- Sample column entry with no sorting options. -/
def sampleNoSort : Option ColumnEntry :=
  some { options := some { sorting := none } }

/-!
Claim theorems.
-/

/-- C10: on a freshly constructed controller (both sorting states
unset), the first `loadOptions()` call always sets `shouldBeUpdated` to
`true`, whatever the column options map (including absent or empty),
because the derived order (`null` or a string) is `!==` the `undefined`
read off the unset initial state, and `setSorting` then sees the same
difference against the unset current state. -/
theorem C10_first_load_always_marks_dirty (m : Option ColumnOptionsMap) (b : Bool) :
    ((loadOptions { columnOptionsMap := m,
                    shouldBeUpdated := b,
                    currentSorting := none,
                    initialSorting := none,
                    modifier := none }).1).shouldBeUpdated = true := by
  have hord := getSortingOptions_order_ne_undef m
  simp only [loadOptions]
  split
  · apply setSorting_flag_of_order_ne
    exact fun heq => hord heq.symm
  · rename_i h
    rw [not_or, not_not, not_not] at h
    exact absurd h.2 hord

/-- C8: an absent column options map, or one in which no column declares
a truthy sorting order, derives the state with `order = null` and no
`columnId` (`undefined`), with no warning — and never an error (the
derivation is a total function). -/
theorem C8_empty_config_yields_null_state (m : Option ColumnOptionsMap)
    (h : m = none ∨ ∃ map, m = some map ∧
      map.all (fun p => !(declaredOrder p.2).truthy) = true) :
    getSortingOptions m = ({ columnId := .undef, order := .nullv }, 0) := by
  rcases h with h | ⟨map, rfl, hall⟩
  · rw [h]
    rfl
  · simp only [getSortingOptions]
    rw [scanColumns_skip]
    · rfl
    · intro p hp
      have hmem : p ∈ map := List.mem_reverse.mp hp
      have hx := List.all_eq_true.mp hall p hmem
      simpa using hx

/-- Witness for C8 at a concrete input: a map whose only column declares
no sorting order. -/
theorem C8_witness :
    getSortingOptions (some [("A", sampleNoSort)]) =
      ({ columnId := .undef, order := .nullv }, 0) :=
  C8_empty_config_yields_null_state (some [("A", sampleNoSort)])
    (Or.inr ⟨[("A", sampleNoSort)], rfl, by decide⟩)

/-- C9: `createModifier` yields no modifier exactly when the current
state (read through optional chaining, so also when unset) lacks a
truthy `columnId` or a truthy `order`; otherwise it yields the
`SortModifier` options with `orderByColumn` the column id, `direction`
the order, and `compare` looked up in the column options map. -/
theorem C9_createModifier_characterization (m : Option ColumnOptionsMap)
    (cs : Option SortingState) :
    (((optionalColumnId cs).truthy = false ∨ (optionalOrder cs).truthy = false) →
      createModifier m cs = none) ∧
    (∀ st c, cs = some st → st.columnId = .str c → st.columnId.truthy = true →
      st.order.truthy = true →
      createModifier m cs =
        some { orderByColumn := c, direction := st.order,
               compare := lookupCompare m c }) := by
  constructor
  · intro h
    match cs with
    | none => rfl
    | some st =>
      simp only [optionalColumnId, optionalOrder] at h
      simp only [createModifier]
      rw [if_neg]
      rcases h with h | h <;> simp [h]
  · intro st c hcs hcol hct hot
    subst hcs
    simp only [createModifier, hot, hct, Bool.and_self, if_true]
    rw [hcol]
    rfl

/-- Witness for C9 at concrete inputs: an unset state yields no
modifier; a truthy state yields the descriptor with the configured
comparator. -/
theorem C9_witness :
    createModifier none none = none ∧
    createModifier (some [("B", sampleDesc)])
        (some { columnId := .str "B", order := .str "desc" }) =
      some { orderByColumn := "B", direction := .str "desc", compare := some 7 } :=
  ⟨(C9_createModifier_characterization none none).1 (Or.inl (by decide)),
   (C9_createModifier_characterization (some [("B", sampleDesc)])
       (some { columnId := .str "B", order := .str "desc" })).2
     { columnId := .str "B", order := .str "desc" } "B" rfl rfl (by decide) (by decide)⟩

/-- C2 as stated fails on the code: `setSorting` performs no validation
of `order`.  At the concrete input `order = "bogus"` (outside the
enumerated set) on a fresh controller, the call is accepted and the
out-of-set value is silently stored in `currentSorting`; no failure
path exists (`setSorting` is a total state transformer). -/
theorem C2_counterexample :
    specValidOrder (.str "bogus") = false ∧
    (setSorting { columnOptionsMap := none,
                  shouldBeUpdated := false,
                  currentSorting := none,
                  initialSorting := none,
                  modifier := none } (.str "bogus") (.str "A")).currentSorting =
      some { columnId := .str "A", order := .str "bogus" } := by
  decide

/-- C2 amended: `setSorting` validates nothing; every `order` value,
inside or outside the enumerated set, is accepted and is what the stored
current state reads back (through optional chaining), with no error. -/
theorem C2_amended_no_validation (g : GridState) (o c : JStr) :
    optionalOrder (setSorting g o c).currentSorting = o ∧
    optionalColumnId (setSorting g o c).currentSorting = c :=
  ⟨(setSorting_fields g o c).2, (setSorting_fields g o c).1⟩

/-- C3: calling `setSorting` twice with identical arguments (the dirty
flag being cleared externally between the calls) leaves
`shouldBeUpdated` false after the second call, and the two calls store
value-equal modifier descriptors. -/
theorem C3_setSorting_idempotent (g : GridState) (o c : JStr) :
    (setSorting { setSorting g o c with shouldBeUpdated := false } o c).shouldBeUpdated
      = false ∧
    (setSorting { setSorting g o c with shouldBeUpdated := false } o c).modifier
      = (setSorting g o c).modifier := by
  have hf := setSorting_fields g o c
  have hsame := setSorting_same
    (g := { setSorting g o c with shouldBeUpdated := false }) hf.1 hf.2
  rw [hsame]
  refine ⟨rfl, ?_⟩
  show createModifier (setSorting g o c).columnOptionsMap
      (setSorting g o c).currentSorting = (setSorting g o c).modifier
  rw [(setSorting_frame g o c).1]
  exact (setSorting_modifier g o c).symm

/-- C4: a `setSorting` call whose pair differs (through optional
chaining, so also on the transition from an unset state) from the stored
one sets `shouldBeUpdated`, and no later sequence of `setSorting` or
`loadOptions` calls ever resets it. -/
theorem C4_monotonic_dirtiness (g : GridState) (o c : JStr) (ops : List Op)
    (h : optionalColumnId g.currentSorting ≠ c ∨
      optionalOrder g.currentSorting ≠ o) :
    (setSorting g o c).shouldBeUpdated = true ∧
    (applyOps (setSorting g o c) ops).1.shouldBeUpdated = true := by
  have h1 : (setSorting g o c).shouldBeUpdated = true := by
    rw [setSorting_change h]
  exact ⟨h1, applyOps_flag_mono ops h1⟩

/-- Witness for C4 at a concrete input: a fresh controller, a first
differing call, then a `loadOptions` and another `setSorting`; the flag
is set and stays set. -/
theorem C4_witness :
    (setSorting { columnOptionsMap := none,
                  shouldBeUpdated := false,
                  currentSorting := none,
                  initialSorting := none,
                  modifier := none } (.str "asc") (.str "A")).shouldBeUpdated = true ∧
    (applyOps (setSorting { columnOptionsMap := none,
                            shouldBeUpdated := false,
                            currentSorting := none,
                            initialSorting := none,
                            modifier := none } (.str "asc") (.str "A"))
        [Op.load, Op.set .nullv .undef]).1.shouldBeUpdated = true :=
  C4_monotonic_dirtiness
    { columnOptionsMap := none, shouldBeUpdated := false, currentSorting := none,
      initialSorting := none, modifier := none }
    (.str "asc") (.str "A") [Op.load, Op.set .nullv .undef] (by decide)

/-- C5: every `setSorting` call rebuilds the modifier from the current
state and the column options map as they stand at call time (so a
comparator changed in the configuration is picked up even when the
`(columnId, order)` pair did not change), while a call whose pair equals
the stored one leaves both `currentSorting` and the dirty flag
untouched. -/
theorem C5_modifier_rebuilt_unconditionally (g : GridState) (o c : JStr) :
    ((setSorting g o c).modifier =
      createModifier g.columnOptionsMap (setSorting g o c).currentSorting) ∧
    (optionalColumnId g.currentSorting = c → optionalOrder g.currentSorting = o →
      (setSorting g o c).currentSorting = g.currentSorting ∧
      (setSorting g o c).shouldBeUpdated = g.shouldBeUpdated) := by
  refine ⟨setSorting_modifier g o c, fun hcol hord => ?_⟩
  constructor <;> rw [setSorting_same hcol hord]

/-- Witness for C5 at a concrete input: a repeated call on a state whose
pair already equals the arguments still stores the freshly built
modifier (with the configured comparator), without touching the state or
the flag. -/
theorem C5_witness :
    (setSorting { columnOptionsMap := some [("B", sampleDesc)],
                  shouldBeUpdated := false,
                  currentSorting := some { columnId := .str "B", order := .str "desc" },
                  initialSorting := none,
                  modifier := none } (.str "desc") (.str "B")).modifier =
      createModifier (some [("B", sampleDesc)])
        ((setSorting { columnOptionsMap := some [("B", sampleDesc)],
                       shouldBeUpdated := false,
                       currentSorting := some { columnId := .str "B", order := .str "desc" },
                       initialSorting := none,
                       modifier := none } (.str "desc") (.str "B")).currentSorting) ∧
    (setSorting { columnOptionsMap := some [("B", sampleDesc)],
                  shouldBeUpdated := false,
                  currentSorting := some { columnId := .str "B", order := .str "desc" },
                  initialSorting := none,
                  modifier := none } (.str "desc") (.str "B")).currentSorting =
      some { columnId := .str "B", order := .str "desc" } ∧
    (setSorting { columnOptionsMap := some [("B", sampleDesc)],
                  shouldBeUpdated := false,
                  currentSorting := some { columnId := .str "B", order := .str "desc" },
                  initialSorting := none,
                  modifier := none } (.str "desc") (.str "B")).shouldBeUpdated = false :=
  ⟨(C5_modifier_rebuilt_unconditionally
      { columnOptionsMap := some [("B", sampleDesc)], shouldBeUpdated := false,
        currentSorting := some { columnId := .str "B", order := .str "desc" },
        initialSorting := none, modifier := none }
      (.str "desc") (.str "B")).1,
   ((C5_modifier_rebuilt_unconditionally
      { columnOptionsMap := some [("B", sampleDesc)], shouldBeUpdated := false,
        currentSorting := some { columnId := .str "B", order := .str "desc" },
        initialSorting := none, modifier := none }
      (.str "desc") (.str "B")).2 rfl rfl).1,
   ((C5_modifier_rebuilt_unconditionally
      { columnOptionsMap := some [("B", sampleDesc)], shouldBeUpdated := false,
        currentSorting := some { columnId := .str "B", order := .str "desc" },
        initialSorting := none, modifier := none }
      (.str "desc") (.str "B")).2 rfl rfl).2⟩

/-- C7: when the configuration is unchanged since the last
`loadOptions()`, a later `loadOptions()` never overrides a current state
installed in the meantime by any sequence of direct `setSorting` calls:
`currentSorting` and the modifier are left exactly as the `setSorting`
calls put them. -/
theorem C7_load_never_overrides_setSorting (g : GridState)
    (sets : List (JStr × JStr)) :
    (loadOptions (applySets (loadOptions g).1 sets)).1.currentSorting =
      (applySets (loadOptions g).1 sets).currentSorting ∧
    (loadOptions (applySets (loadOptions g).1 sets)).1.modifier =
      (applySets (loadOptions g).1 sets).modifier := by
  have hm := applySets_preserves_matches sets (loadOptions_establishes g)
  rw [loadOptions_noop hm]
  exact ⟨rfl, rfl⟩

/-- Grid state with a configuration in which two columns ("A" then "B",
in declaration order) both declare a sorting order. -/
def conflictGrid : GridState :=
  { columnOptionsMap := some [("A", sampleAsc), ("B", sampleDesc)],
    shouldBeUpdated := false,
    currentSorting := none,
    initialSorting := none,
    modifier := none }

/-- C6 as stated fails on the code: with the conflicting configuration
of `conflictGrid`, a second `loadOptions()` (after the dirty flag is
cleared) does not re-mark dirty, but it does emit the conflict warning
again — the scan, and its `console.warn`, run unconditionally before
the state comparison, so the second call emits one warning, not zero. -/
theorem C6_counterexample :
    (loadOptions conflictGrid).2 = 1 ∧
    (loadOptions { (loadOptions conflictGrid).1 with
                   shouldBeUpdated := false }).1.shouldBeUpdated = false ∧
    (loadOptions { (loadOptions conflictGrid).1 with
                   shouldBeUpdated := false }).2 = 1 ∧
    (loadOptions { (loadOptions conflictGrid).1 with
                   shouldBeUpdated := false }).2 ≠ 0 := by
  decide

/-- C6 amended: a second `loadOptions()` with the configuration
unchanged does not set `shouldBeUpdated` to `true` again, but it emits
exactly the same conflict warnings as the first call (so with a
conflicting configuration the warning is re-emitted, once per call). -/
theorem C6_amended_no_redirty_but_rewarns (g : GridState) :
    (loadOptions { (loadOptions g).1 with
                   shouldBeUpdated := false }).1.shouldBeUpdated = false ∧
    (loadOptions { (loadOptions g).1 with
                   shouldBeUpdated := false }).2 = (loadOptions g).2 := by
  have hm : initialMatches { (loadOptions g).1 with shouldBeUpdated := false } :=
    loadOptions_establishes g
  constructor
  · rw [loadOptions_noop hm]
  · rw [loadOptions_warnings, loadOptions_warnings]
    have hmap : ({ (loadOptions g).1 with
        shouldBeUpdated := false } : GridState).columnOptionsMap =
        g.columnOptionsMap := loadOptions_map g
    rw [hmap]

/-- C1 as stated fails on the code: in the configuration with columns
"A" and "" (the empty-string id declared last), both declaring an order,
the last-declared conflicting column should win with one warning — but
the scan records the empty-string id, the later truthiness test
`if (foundColumnId)` then reads it as falsy, so column "A" silently
overwrites it: the winner is "A" and no warning is emitted. -/
theorem C1_counterexample :
    (loadOptions { columnOptionsMap := some [("A", sampleAsc), ("", sampleAsc)],
                   shouldBeUpdated := false,
                   currentSorting := none,
                   initialSorting := none,
                   modifier := none }).1.currentSorting =
      some { columnId := .str "A", order := .str "asc" } ∧
    (loadOptions { columnOptionsMap := some [("A", sampleAsc), ("", sampleAsc)],
                   shouldBeUpdated := false,
                   currentSorting := none,
                   initialSorting := none,
                   modifier := none }).1.currentSorting ≠
      some { columnId := .str "", order := .str "asc" } ∧
    (loadOptions { columnOptionsMap := some [("A", sampleAsc), ("", sampleAsc)],
                   shouldBeUpdated := false,
                   currentSorting := none,
                   initialSorting := none,
                   modifier := none }).2 = 0 := by
  decide

/-- C1 amended: on a first configuration load (`initialSorting` unset),
when at least two columns declare a truthy sorting order and the
last-declared such column has a non-empty identifier, that column wins:
`currentSorting` becomes its `(columnId, order)` pair, and exactly one
conflict warning is emitted — also with three or more such columns.
(The last-declared such column is the pair `(cid, e)` in the
decomposition of the reversed map below; the `l2.any` hypothesis says an
earlier column also declares an order.) -/
theorem C1_last_declared_wins (g : GridState) (map : ColumnOptionsMap)
    (cid : String) (e : Option ColumnEntry)
    (l1 l2 : List (String × Option ColumnEntry))
    (hmap : g.columnOptionsMap = some map)
    (hinit : g.initialSorting = none)
    (hdec : map.reverse = l1 ++ (cid, e) :: l2)
    (hl1 : ∀ p ∈ l1, (declaredOrder p.2).truthy = false)
    (he : (declaredOrder e).truthy = true)
    (hcid : cid ≠ "")
    (hl2 : l2.any (fun p => (declaredOrder p.2).truthy) = true) :
    (loadOptions g).1.currentSorting =
      some { columnId := .str cid, order := declaredOrder e } ∧
    (loadOptions g).2 = 1 := by
  have hscan : scanColumns map.reverse .nullv none 0 =
      { foundOrder := declaredOrder e, foundColumnId := some cid,
        warnings := 1 } := by
    rw [hdec, scanColumns_append_skip _ _ _ _ hl1]
    simp only [scanColumns, he, if_true]
    have hnone : foundIdTruthy none = false := rfl
    rw [hnone]
    simp only [Bool.false_eq_true, if_false]
    exact scanColumns_break _ _ _ hcid hl2
  have hso : getSortingOptions g.columnOptionsMap =
      ({ columnId := .str cid, order := declaredOrder e }, 1) := by
    rw [hmap]
    simp only [getSortingOptions]
    rw [hscan]
    rfl
  simp only [loadOptions, hso]
  rw [if_pos]
  · refine ⟨?_, rfl⟩
    exact setSorting_currentSorting (fun hx => JStr.noConfusion hx)
  · rw [hinit]
    exact Or.inl (fun hx => JStr.noConfusion hx)

/-- Witness for the amended C1 at a concrete input: columns "A" and "B"
(declared in that order) both declare an order; "B" wins and exactly one
warning is emitted. -/
theorem C1_witness :
    (loadOptions conflictGrid).1.currentSorting =
      some { columnId := .str "B", order := .str "desc" } ∧
    (loadOptions conflictGrid).2 = 1 :=
  C1_last_declared_wins conflictGrid [("A", sampleAsc), ("B", sampleDesc)]
    "B" sampleDesc [] [("A", sampleAsc)]
    rfl rfl (by decide) (by simp) (by decide) (by decide) (by decide)
